import Mathlib

/-!
Verification of the EternalWeb browser-capture subsystem.

This file gives a shallow embedding, in Lean 4, of the hook processes of the
EternalWeb archiving engine (session launcher, tab allocator, capture plugins,
extension configurator, zombie reaper) and proves or refutes the behavioural
claims of the specification against it.

Conventions of the embedding:
- a hook process is modelled by a pure function from its inputs (CLI arguments,
  environment flags, filesystem contents, outcomes of external effects such as
  a browser connection) to a `HookOutcome` recording the ArchiveResult JSON
  lines it prints on stdout, its exit code (`none` means the hook stays
  resident awaiting a termination signal), and whether it attempted a browser
  connection;
- JavaScript `Map`s are modelled as association lists, JS string falsiness as
  emptiness, thrown exceptions as `Except`/`Option`;
- event listeners are modelled as step functions folded over a list of events;
- JS string primitives (`startsWith`, `trim`, `split`, `includes`, ...) are
  modelled by structurally recursive functions on the character list of the
  string, so that every definition evaluates by kernel reduction.
-/

/-! ## JS string primitives -/

/-- Models JavaScript `s.startsWith(pre)`. -/
def jsStartsWith (s pre : String) : Bool :=
  pre.data.isPrefixOf s.data

/-- Models JavaScript `s.trim()`: strip whitespace from both ends. -/
def jsTrim (s : String) : String :=
  ⟨((s.data.dropWhile Char.isWhitespace).reverse.dropWhile Char.isWhitespace).reverse⟩

/-- Helper for `jsSplitOnChar`: accumulates the current field in reverse. -/
def splitOnCharAux (sep : Char) : List Char → List Char → List (List Char)
  | [], acc => [acc.reverse]
  | c :: t, acc =>
    if c == sep then acc.reverse :: splitOnCharAux sep t []
    else splitOnCharAux sep t (c :: acc)

/-- Models JavaScript `s.split(sep)` for a single-character separator
(empty fields are kept, as in JS). -/
def jsSplitOnChar (sep : Char) (s : String) : List String :=
  (splitOnCharAux sep s.data []).map (fun l => ⟨l⟩)

/-- Substring occurrence test on character lists. -/
def hasSubstr (pat : List Char) : List Char → Bool
  | [] => pat.isEmpty
  | c :: t => pat.isPrefixOf (c :: t) || hasSubstr pat t

/-- Models JavaScript `s.includes(pat)`. -/
def strIncludes (s pat : String) : Bool :=
  hasSubstr pat.data s.data

/-- Models JavaScript `s.toUpperCase()` for ASCII strings. -/
def jsToUpper (s : String) : String :=
  ⟨s.data.map Char.toUpper⟩

/-- Models JavaScript `s.toLowerCase()` for ASCII strings. -/
def jsToLower (s : String) : String :=
  ⟨s.data.map Char.toLower⟩

/-- Models JavaScript `s.slice(n)` / Lean `String.drop` by characters. -/
def jsDrop (s : String) (n : Nat) : String :=
  ⟨s.data.drop n⟩

/-- Models JavaScript `parseInt(s, 10)`: skip leading whitespace, optional
sign, then the longest run of leading decimal digits; `none` models `NaN`
(no digits). Trailing garbage is ignored, as in JS. -/
def jsParseInt (s : String) : Option Int :=
  let cs := s.data.dropWhile (fun c => c.isWhitespace)
  let signed : Bool × List Char :=
    match cs with
    | '-' :: t => (true, t)
    | '+' :: t => (false, t)
    | _ => (false, cs)
  let digits := signed.2.takeWhile (fun c => c.isDigit)
  if digits.isEmpty then none
  else
    let n : Nat := digits.foldl (fun acc c => acc * 10 + (c.toNat - 48)) 0
    some (if signed.1 then -(n : Int) else (n : Int))

/-! ## Shared result and outcome types -/

/-- One ArchiveResult JSON line as printed on stdout by a hook
(`{type:"ArchiveResult", status, output_str}`). Only the fields relevant
to the claims are modelled. -/
structure ArchiveResult where
  status : String
  output_str : String
deriving Repr, DecidableEq

/-- Observable outcome of running a hook process: the ArchiveResult lines it
printed to stdout, its exit code (`none` = stays resident until signalled),
and whether it attempted to connect to the browser. -/
structure HookOutcome where
  results : List ArchiveResult
  exitCode : Option Nat
  connectedToBrowser : Bool
deriving Repr, DecidableEq

/-! ## TLS/SSL capture hook (plugins/ssl/on_Snapshot__23_ssl.bg.js)

`setupListener` (lines 40-54) first guards `if (!url.startsWith('https://'))
throw new Error('URL is not HTTPS')` and only then calls `connectToPage`.
`main` (lines 135-183) checks the CLI arguments, then the `SSL_ENABLED` flag
(skipped + exit 0 when false), then runs `setupListener` inside a try/catch
whose catch prints a single `failed` ArchiveResult with
`output_str = "Error: URL is not HTTPS"` (from `${e.name}: ${e.message}`)
and exits 1. -/

/-- Models `main` of the ssl hook. `url`/`snapshotId` are `none` when the
corresponding CLI argument is missing; `connect` is the outcome of the
`connectToPage` browser connection (reached only for HTTPS URLs with the
plugin enabled). -/
def sslMain (sslEnabled : Bool) (url snapshotId : Option String)
    (connect : Except String Unit) : HookOutcome :=
  match url, snapshotId with
  | some u, some _ =>
    if !sslEnabled then
      { results := [⟨"skipped", "SSL_ENABLED=False"⟩], exitCode := some 0,
        connectedToBrowser := false }
    else if !(jsStartsWith u "https://") then
      { results := [⟨"failed", "Error: URL is not HTTPS"⟩], exitCode := some 1,
        connectedToBrowser := false }
    else
      match connect with
      | .ok _ =>
        { results := [], exitCode := none, connectedToBrowser := true }
      | .error e =>
        { results := [⟨"failed", e⟩], exitCode := some 1,
          connectedToBrowser := true }
  | _, _ =>
    { results := [], exitCode := some 1, connectedToBrowser := false }

/-! ## Session launcher argument composition (chrome_utils.ts, launchChromium)

Lines 445-496: `chromiumArgs = [...baseArgs, ...dynamicArgs, ...extraArgs]`,
then `--use-mock-keychain` is pushed if absent, then extension flags when
extension paths are present, then `about:blank`. There is no key-based
deduplication anywhere. -/

/-- Models the `dynamicArgs` array computed at lines 453-476 of
`launchChromium` (runtime flags: debug port/address, sandbox toggles,
shm/gpu workarounds, window size, profile directory, headless toggle,
certificate checking). -/
def buildDynamicArgs (debugPort : Nat) (sandbox : Bool) (width height : Nat)
    (userDataDir : Option String) (headless checkSsl : Bool) : List String :=
  [s!"--remote-debugging-port={debugPort}", "--remote-debugging-address=127.0.0.1"]
  ++ (if sandbox then [] else ["--no-sandbox", "--disable-setuid-sandbox"])
  ++ ["--disable-dev-shm-usage", "--disable-gpu"]
  ++ [s!"--window-size={width},{height}"]
  ++ (match userDataDir with
      | some d => ["--user-data-dir=" ++ d]
      | none => [])
  ++ (if headless then ["--headless=new"] else [])
  ++ (if checkSsl then [] else ["--ignore-certificate-errors"])

/-- Models the composition of the effective browser command line in
`launchChromium` lines 478-496: plain list concatenation
`base ++ dynamic ++ extra`, then the mock-keychain flag if absent, then
extension-loading flags, then `about:blank`. -/
def launchChromiumArgs (baseArgs dynamicArgs extraArgs : List String)
    (extensionPaths : List String) : List String :=
  let args := baseArgs ++ dynamicArgs ++ extraArgs
  let args := if args.contains "--use-mock-keychain" then args
              else args ++ ["--use-mock-keychain"]
  let args := if extensionPaths.isEmpty then args
              else args ++
                ["--load-extension=" ++ String.intercalate "," extensionPaths,
                 "--enable-unsafe-extension-debugging",
                 "--disable-features=DisableLoadExtensionCommandLineSwitch,ExtensionManifestV2Unsupported,ExtensionManifestV2Disabled"]
  args ++ ["about:blank"]

/-! ## Theorems for claim C1 -/

/-- Claim C1, as stated, is false: with SSL_ENABLED true, the non-HTTPS URL
`http://example.com` makes the ssl hook emit a single `failed` ArchiveResult
(`output_str = "Error: URL is not HTTPS"`) and exit 1 — it does not record an
"insecure" securityState, and it does end in a failed result merely because
the URL is non-HTTPS. -/
theorem c1_counterexample :
    sslMain true (some "http://example.com") (some "snapshot-1") (.ok ()) =
      { results := [⟨"failed", "Error: URL is not HTTPS"⟩],
        exitCode := some 1, connectedToBrowser := false } := by
  decide

/-- Claim C1 (amended): for every invocation of the ssl hook with
SSL_ENABLED true and a URL whose scheme is not https, the hook emits exactly
one `failed` ArchiveResult with output "Error: URL is not HTTPS" and exits 1,
without ever attempting a browser connection or a certificate read (the
non-HTTPS guard throws before `connectToPage` is called). -/
theorem c1_ssl_non_https_fails_before_connect
    (u s : String) (connect : Except String Unit)
    (h : jsStartsWith u "https://" = false) :
    sslMain true (some u) (some s) connect =
      { results := [⟨"failed", "Error: URL is not HTTPS"⟩],
        exitCode := some 1, connectedToBrowser := false } := by
  simp [sslMain, h]

/-- Witness for C1's amended theorem at the concrete URL
"http://example.com". -/
theorem c1_ssl_non_https_fails_before_connect_witness :
    jsStartsWith "http://example.com" "https://" = false ∧
    sslMain true (some "http://example.com") (some "snap") (.ok ()) =
      { results := [⟨"failed", "Error: URL is not HTTPS"⟩],
        exitCode := some 1, connectedToBrowser := false } :=
  ⟨by decide, c1_ssl_non_https_fails_before_connect "http://example.com" "snap"
      (.ok ()) (by decide)⟩

/-! ## Theorems for claim C2 -/

/-- Claim C2, as stated, is false: with a base configured flag
`--window-size=800,600` and the computed dynamic flags containing
`--window-size=1440,2000` (same key, different values), the composed command
line contains BOTH flags — the earlier duplicate is not removed. -/
theorem c2_counterexample :
    (launchChromiumArgs ["--window-size=800,600"]
        (buildDynamicArgs 9222 true 1440 2000 none true true) [] []).contains
        "--window-size=800,600" = true ∧
    (launchChromiumArgs ["--window-size=800,600"]
        (buildDynamicArgs 9222 true 1440 2000 none true true) [] []).contains
        "--window-size=1440,2000" = true := by
  constructor <;> decide

/-- Claim C2 (amended): the launcher performs no key-based deduplication; the
composed command line is exactly `base ++ dynamic ++ extra` followed by a
computed tail (mock-keychain flag, extension flags, `about:blank`). On a key
conflict both flags are passed, with the dynamic one appearing later;
last-wins resolution is delegated to the browser's own flag parsing. -/
theorem c2_launch_args_concatenation
    (baseArgs dynamicArgs extraArgs extensionPaths : List String) :
    ∃ tail, launchChromiumArgs baseArgs dynamicArgs extraArgs extensionPaths =
      baseArgs ++ dynamicArgs ++ extraArgs ++ tail := by
  simp only [launchChromiumArgs]
  split_ifs with h₁ h₂ h₃ <;>
    (simp only [List.append_assoc]; exact ⟨_, rfl⟩)

/-! ## DNS recorder main (unnamed dns hook, on_Snapshot__22_dns.js)

`main` (lines 211-259): usage check, then the `DNS_ENABLED` guard printing a
single skipped ArchiveResult and exiting 0 before `setupListener` (and hence
before any `connectToPage` browser connection); otherwise connect and stay
resident, with the catch printing a single failed result and exiting 1. -/

/-- Models `main` of the dns hook (same lifecycle skeleton as the ssl hook,
with the `DNS_ENABLED` flag). -/
def dnsMain (dnsEnabled : Bool) (url snapshotId : Option String)
    (connect : Except String Unit) : HookOutcome :=
  match url, snapshotId with
  | some _, some _ =>
    if !dnsEnabled then
      { results := [⟨"skipped", "DNS_ENABLED=False"⟩], exitCode := some 0,
        connectedToBrowser := false }
    else
      match connect with
      | .ok _ =>
        { results := [], exitCode := none, connectedToBrowser := true }
      | .error e =>
        { results := [⟨"failed", e⟩], exitCode := some 1,
          connectedToBrowser := true }
  | _, _ =>
    { results := [], exitCode := some 1, connectedToBrowser := false }

/-! ## Screenshot hook module prologue
(on_Snapshot__51_screenshot.js, lines 421-426)

The `SCREENSHOT_ENABLED` guard runs at module top level, before puppeteer is
even required: when the flag is false the process prints a stderr message and
exits 0 WITHOUT emitting any ArchiveResult JSON line (the source comment reads
"Temporary failure (config disabled) - NO JSONL emission"). -/

/-- Models the screenshot hook module: the top-level enablement guard, with
`rest` the outcome of the remainder of the module when the flag is true. -/
def screenshotModule (screenshotEnabled : Bool) (rest : HookOutcome) : HookOutcome :=
  if !screenshotEnabled then
    { results := [], exitCode := some 0, connectedToBrowser := false }
  else rest

/-! ## DNS recorder result emission (dns hook, lines 189-198)

`emitResult` is guarded by the module-scope `shuttingDown` flag: the first
call prints the single ArchiveResult line and sets the flag; later calls
return immediately, so at most one line is ever printed. -/

/-- Per-process emission state of the dns hook: the `shuttingDown` flag and
the ArchiveResult lines printed so far. -/
structure EmitState where
  shuttingDown : Bool
  lines : List ArchiveResult
deriving Repr, DecidableEq

/-- Initial emission state of a capture hook process (the `shuttingDown` /
`finalized` module flag is false and nothing has been printed). -/
def emitInit : EmitState := { shuttingDown := false, lines := [] }

/-- Models `emitResult(status)` of the dns hook with the current
`recordCount`. -/
def dnsEmitResult (st : EmitState) (status : String) (recordCount : Nat) : EmitState :=
  if st.shuttingDown then st
  else
    { shuttingDown := true,
      lines := st.lines ++ [⟨status, s!"dns.jsonl ({recordCount} DNS records)"⟩] }

/-! ## 2captcha configurator hook (on_Crawl__95_twocaptcha_config.js)

`main` (lines 343-384) computes a status from `configure2Captcha()` but, per
the source comment "Config hooks don't emit JSONL - they're utility hooks for
setup", prints NO ArchiveResult line at all; the exit code (0 for
succeeded/skipped, 1 otherwise) is its only outcome channel. -/

/-- Outcome of `configure2Captcha()` as seen by `main`. -/
inductive ConfigureOutcome where
  | succeeded
  | skipped
  | failed (e : String)
deriving Repr, DecidableEq

/-- Models `main` of the 2captcha configurator hook. `connected` records
whether `configure2Captcha` reached the browser connection. -/
def twocaptchaConfigMain (url snapshotId : Option String)
    (outcome : ConfigureOutcome) (connected : Bool) : HookOutcome :=
  match url, snapshotId with
  | some _, some _ =>
    match outcome with
    | .succeeded => { results := [], exitCode := some 0, connectedToBrowser := connected }
    | .skipped => { results := [], exitCode := some 0, connectedToBrowser := connected }
    | .failed _ => { results := [], exitCode := some 1, connectedToBrowser := connected }
  | _, _ =>
    { results := [], exitCode := some 1, connectedToBrowser := false }

/-! ## Tab allocator hook (on_Snapshot__10_chrome_tab.bg.ts)

`findCrawlChromeSession` (lines 121-149) returns null when CRAWL_OUTPUT_DIR
is unset, the cdp/pid marker files are missing or unreadable, the recorded
pid does not parse, or the liveness probe `process.kill(pid, 0)` throws.
`main` (lines 298-374) uses the session when found; otherwise it sets
`result = { success: false, error: 'No crawl Chrome session found ...' }` —
the `launchNewChrome` fallback (lines 193-296) is defined but never invoked,
so the hook never spawns a browser of its own. On failure it emits one failed
ArchiveResult and exits 1. -/

/-- Filesystem/process state visible to `findCrawlChromeSession`:
`crawlOutputDir` is `none` when the CRAWL_OUTPUT_DIR variable is empty;
`cdpFile`/`pidFile` are the readable contents of `chrome/cdp_url.txt` and
`chrome/chrome.pid` (or `none` when missing or unreadable); `aliveProbe pid`
tells whether `process.kill(pid, 0)` succeeds. -/
structure TabFs where
  crawlOutputDir : Option String
  cdpFile : Option String
  pidFile : Option String
  aliveProbe : Int → Bool

/-- Models `findCrawlChromeSession`. -/
def findCrawlChromeSession (fs : TabFs) : Option (String × Int) :=
  match fs.crawlOutputDir with
  | none => none
  | some _ =>
    match fs.cdpFile, fs.pidFile with
    | some cdpRaw, some pidRaw =>
      match jsParseInt (jsTrim pidRaw) with
      | some pid => if fs.aliveProbe pid then some (jsTrim cdpRaw, pid) else none
      | none => none
    | _, _ => none

/-- Observable outcome of the tab allocator hook: ArchiveResult lines, exit
code (`none` = stays resident), and whether it spawned a standalone browser
process of its own. -/
structure TabOutcome where
  results : List ArchiveResult
  exitCode : Option Nat
  spawnedOwnBrowser : Bool
deriving Repr, DecidableEq

/-- Models `main` of the tab allocator hook. `binaryFound` is whether
`findChromium()` located a browser binary; `createTab` is the outcome of
`createTabInExistingChrome` (only reached when a live session is found). -/
def chromeTabMain (url snapshotId : Option String) (binaryFound : Bool)
    (fs : TabFs) (createTab : Except String String) : TabOutcome :=
  match url, snapshotId with
  | some _, some _ =>
    if !binaryFound then
      { results := [], exitCode := some 1, spawnedOwnBrowser := false }
    else
      match findCrawlChromeSession fs with
      | some _ =>
        match createTab with
        | .ok _ => { results := [], exitCode := none, spawnedOwnBrowser := false }
        | .error e =>
          { results := [⟨"failed", e⟩], exitCode := some 1, spawnedOwnBrowser := false }
      | none =>
        { results := [⟨"failed",
            "No crawl Chrome session found (CRAWL_OUTPUT_DIR missing or chrome not running)"⟩],
          exitCode := some 1, spawnedOwnBrowser := false }
  | _, _ =>
    { results := [], exitCode := some 1, spawnedOwnBrowser := false }

/-! ## Zombie reaper (chrome_utils.ts, killZombieChrome lines 270-315)

Per collected pid marker file: skip when the owning crawl directory's mtime
is fresher than the 5-minute staleness threshold (or unreadable); skip when
the recorded pid does not parse or is non-positive; when the liveness probe
fails (process dead) remove the marker and send no kill; when alive, SIGKILL
the process group, falling back to the single pid, and remove the marker —
but ONLY inside the same try block, so when both kill calls throw, the outer
catch skips the removal. -/

/-- Staleness threshold of the reaper (`now - 300000` ms). -/
def staleThresholdMs : Nat := 300000

/-- World state for one reaper candidate: current time, the owning crawl
directory's mtime (`none` when `statSync` throws), the pid marker file
contents, and the outcomes of the liveness probe and of the group/single
SIGKILL syscalls. -/
structure ReapWorld where
  nowMs : Nat
  crawlMtimeMs : Option Nat
  pidFileContent : String
  pidAlive : Int → Bool
  groupKillOk : Int → Bool
  singleKillOk : Int → Bool

/-- Actions taken by the reaper on one candidate: which SIGKILL syscalls were
issued, whether the pid marker file was removed, and the zombie count
increment. -/
structure ReapAction where
  sentGroupKill : Bool
  sentSingleKill : Bool
  removedPidFile : Bool
  killedCount : Nat
deriving Repr, DecidableEq

/-- Models one iteration of the candidate loop of `killZombieChrome`
(lines 273-312) for a single pid marker file. -/
def killZombieCandidate (w : ReapWorld) : ReapAction :=
  match w.crawlMtimeMs with
  | none => ⟨false, false, false, 0⟩
  | some mtime =>
    if w.nowMs - staleThresholdMs < mtime then ⟨false, false, false, 0⟩
    else
      match jsParseInt (jsTrim w.pidFileContent) with
      | none => ⟨false, false, false, 0⟩
      | some pid =>
        if pid ≤ 0 then ⟨false, false, false, 0⟩
        else if !(w.pidAlive pid) then ⟨false, false, true, 0⟩
        else if w.groupKillOk pid then ⟨true, false, true, 1⟩
        else if w.singleKillOk pid then ⟨true, true, true, 1⟩
        else ⟨true, true, false, 0⟩

/-! ## Theorems for claim C3 -/

/-- Claim C3, as stated, is false: the screenshot plugin with
SCREENSHOT_ENABLED false exits 0 but emits ZERO ArchiveResult lines (not
exactly one skipped line) — its module-level guard deliberately performs "NO
JSONL emission". -/
theorem c3_counterexample :
    screenshotModule false
      { results := [⟨"succeeded", "screenshot.png"⟩], exitCode := some 0,
        connectedToBrowser := true } =
    { results := [], exitCode := some 0, connectedToBrowser := false } := by
  decide

/-! ## Theorems for claim C4 -/

/-- Claim C4, as stated, is false: the 2captcha configurator hook — one of
the extension installer/configurator hooks in this subsystem — emits ZERO
ArchiveResult JSON lines over its whole lifetime (here on a successful
configuration run), not exactly one. -/
theorem c4_counterexample :
    (twocaptchaConfigMain (some "https://example.com") (some "snap-1")
        .succeeded true).results = [] ∧
    (twocaptchaConfigMain (some "https://example.com") (some "snap-1")
        .succeeded true).exitCode = some 0 := by
  constructor <;> decide

/-! ## Theorems for claim C5 -/

/-- Claim C5 (confirmed): whenever no live crawl-level session is found
(marker files missing, unreadable, or the recorded pid not alive — i.e.
`findCrawlChromeSession` returns none), the tab allocator emits exactly one
failed ArchiveResult and exits 1 without spawning any browser process of its
own; the standalone-browser launch path (`launchNewChrome`) is dead code,
never invoked by `main`. -/
theorem c5_no_session_fails_without_spawning
    (u s : String) (fs : TabFs) (createTab : Except String String)
    (h : findCrawlChromeSession fs = none) :
    chromeTabMain (some u) (some s) true fs createTab =
      { results := [⟨"failed",
          "No crawl Chrome session found (CRAWL_OUTPUT_DIR missing or chrome not running)"⟩],
        exitCode := some 1, spawnedOwnBrowser := false } := by
  simp [chromeTabMain, h]

/-- Witness for C5's theorem: a state with no CRAWL_OUTPUT_DIR set. -/
theorem c5_no_session_fails_without_spawning_witness :
    findCrawlChromeSession ⟨none, none, none, fun _ => false⟩ = none ∧
    chromeTabMain (some "https://example.com") (some "snap-1") true
        ⟨none, none, none, fun _ => false⟩ (.ok "chrome") =
      { results := [⟨"failed",
          "No crawl Chrome session found (CRAWL_OUTPUT_DIR missing or chrome not running)"⟩],
        exitCode := some 1, spawnedOwnBrowser := false } :=
  ⟨rfl, c5_no_session_fails_without_spawning "https://example.com" "snap-1"
      ⟨none, none, none, fun _ => false⟩ (.ok "chrome") rfl⟩

/-! ## Theorems for claim C6 -/

/-- Claim C6, as stated, is false on its third conjunct: for a stale
candidate with a live pid whose group AND single SIGKILL calls both fail,
the reaper does NOT remove the marker file (the removal sits inside the same
try block as the kill, so the outer catch skips it) — contradicting "the
marker file is removed regardless of the kill outcome". -/
theorem c6_counterexample :
    killZombieCandidate
      { nowMs := 1000000, crawlMtimeMs := some 0, pidFileContent := "123",
        pidAlive := fun _ => true, groupKillOk := fun _ => false,
        singleKillOk := fun _ => false } =
    { sentGroupKill := true, sentSingleKill := true, removedPidFile := false,
      killedCount := 0 } := by
  rfl

/-- Claim C6 (amended): for each pid marker file: (1) a fresh crawl mtime
means no action regardless of pid liveness; (2) stale mtime with a dead pid
means the marker is removed and no kill signal is issued; (3) stale mtime
with a live pid means SIGKILL is sent to the process group, falling back to
the single pid when the group kill fails, and the marker is removed iff at
least one of the two kill calls succeeds (when both fail the marker is
kept for the next reaper pass). -/
theorem c6_reaper_candidate_behaviour :
    (∀ (w : ReapWorld) (mtime : Nat), w.crawlMtimeMs = some mtime →
      w.nowMs - staleThresholdMs < mtime →
      killZombieCandidate w = ⟨false, false, false, 0⟩) ∧
    (∀ (w : ReapWorld) (mtime : Nat) (pid : Int), w.crawlMtimeMs = some mtime →
      ¬ (w.nowMs - staleThresholdMs < mtime) →
      jsParseInt (jsTrim w.pidFileContent) = some pid → 0 < pid →
      w.pidAlive pid = false →
      killZombieCandidate w = ⟨false, false, true, 0⟩) ∧
    (∀ (w : ReapWorld) (mtime : Nat) (pid : Int), w.crawlMtimeMs = some mtime →
      ¬ (w.nowMs - staleThresholdMs < mtime) →
      jsParseInt (jsTrim w.pidFileContent) = some pid → 0 < pid →
      w.pidAlive pid = true →
      (killZombieCandidate w).sentGroupKill = true ∧
      (killZombieCandidate w).sentSingleKill = !(w.groupKillOk pid) ∧
      (killZombieCandidate w).removedPidFile =
        (w.groupKillOk pid || w.singleKillOk pid)) := by
  refine ⟨?_, ?_, ?_⟩
  · intro w mtime hm hfresh
    simp [killZombieCandidate, hm, hfresh]
  · intro w mtime pid hm hstale hparse hpos halive
    have hnp : ¬ pid ≤ 0 := by omega
    simp [killZombieCandidate, hm, hstale, hparse, hnp, halive]
  · intro w mtime pid hm hstale hparse hpos halive
    have hnp : ¬ pid ≤ 0 := by omega
    cases hg : w.groupKillOk pid <;> cases hs : w.singleKillOk pid <;>
      simp [killZombieCandidate, hm, hstale, hparse, hnp, halive, hg, hs]

/-- Witness for C6's amended theorem: concrete worlds exercising the fresh
case, the stale-dead case, and the stale-alive case with a failing group
kill and succeeding single kill. -/
theorem c6_reaper_candidate_behaviour_witness :
    killZombieCandidate
      { nowMs := 1000000, crawlMtimeMs := some 900000, pidFileContent := "55",
        pidAlive := fun _ => true, groupKillOk := fun _ => true,
        singleKillOk := fun _ => true } = ⟨false, false, false, 0⟩ ∧
    killZombieCandidate
      { nowMs := 1000000, crawlMtimeMs := some 0, pidFileContent := "55",
        pidAlive := fun _ => false, groupKillOk := fun _ => true,
        singleKillOk := fun _ => true } = ⟨false, false, true, 0⟩ ∧
    (killZombieCandidate
      { nowMs := 1000000, crawlMtimeMs := some 0, pidFileContent := "55",
        pidAlive := fun _ => true, groupKillOk := fun _ => false,
        singleKillOk := fun _ => true }).sentGroupKill = true ∧
    (killZombieCandidate
      { nowMs := 1000000, crawlMtimeMs := some 0, pidFileContent := "55",
        pidAlive := fun _ => true, groupKillOk := fun _ => false,
        singleKillOk := fun _ => true }).sentSingleKill = true ∧
    (killZombieCandidate
      { nowMs := 1000000, crawlMtimeMs := some 0, pidFileContent := "55",
        pidAlive := fun _ => true, groupKillOk := fun _ => false,
        singleKillOk := fun _ => true }).removedPidFile = true := by
  refine ⟨?_, ?_, ?_, ?_, ?_⟩
  · exact c6_reaper_candidate_behaviour.1 _ 900000 rfl (by decide)
  · exact c6_reaper_candidate_behaviour.2.1 _ 0 55 rfl (by decide) (by decide)
      (by decide) rfl
  · exact (c6_reaper_candidate_behaviour.2.2 _ 0 55 rfl (by decide) (by decide)
      (by decide) rfl).1
  · exact (c6_reaper_candidate_behaviour.2.2 _ 0 55 rfl (by decide) (by decide)
      (by decide) rfl).2.1
  · exact (c6_reaper_candidate_behaviour.2.2 _ 0 55 rfl (by decide) (by decide)
      (by decide) rfl).2.2

/-! ## DNS recorder listeners (dns hook, setupListener lines 49-187)

The `Network.requestWillBeSent` listener tracks requestId → URL;
`Network.responseReceived` appends one record per unseen
`hostname:remoteIPAddress` pair (A/AAAA by IP shape), keyed in the
`seenResolutions` map; `Network.loadingFailed` appends one NXDOMAIN-typed
record per unseen `hostname:NXDOMAIN` key when the error text is a
name-resolution failure. -/

/-- Models `new URL(url).hostname` for ordinary http/https URLs: the
characters between the first "://" and the next '/', ':', '?' or '#',
lowercased; `none` models the URL constructor throwing (no scheme separator,
empty scheme or empty host). -/
def findSchemeSplit : List Char → List Char → Option (List Char × List Char)
  | [], _ => none
  | c :: t, acc =>
    if [':', '/', '/'].isPrefixOf (c :: t) then some (acc.reverse, t.drop 2)
    else findSchemeSplit t (c :: acc)

/-- Models `extractHostname` of the dns hook (lines 40-47). -/
def extractHostname (url : String) : Option String :=
  match findSchemeSplit url.data [] with
  | none => none
  | some (scheme, rest) =>
    let host := rest.takeWhile (fun c => !(c == '/' || c == ':' || c == '?' || c == '#'))
    if scheme.isEmpty || host.isEmpty then none
    else some (jsToLower ⟨host⟩)

/-- Models `Map.prototype.set` on a string-keyed association list. -/
def jsMapSet (m : List (String × String)) (k v : String) : List (String × String) :=
  (k, v) :: m.filter (fun p => p.1 != k)

/-- Models `Map.prototype.get` on a string-keyed association list. -/
def jsMapGet (m : List (String × String)) (k : String) : Option String :=
  (m.find? (fun p => p.1 == k)).map (fun p => p.2)

/-- Models the error-text test at lines 153-154 of the dns hook. -/
def isNameResolutionError (errorText : String) : Bool :=
  strIncludes errorText "net::ERR_NAME_NOT_RESOLVED" ||
  strIncludes errorText "net::ERR_NAME_RESOLUTION_FAILED"

/-- One record of `dns.jsonl` (all fields of the JS object except the wall
clock timestamp `ts`). -/
structure DnsRecord where
  hostname : String
  ip : Option String
  port : Option Nat
  rtype : String
  protocol : String
  url : String
  requestId : String
  error : Option String
deriving Repr, DecidableEq

/-- Per-process state of the dns hook's listeners: the de-duplication key
set `seenResolutions`, the requestId → URL map, the records appended to the
output file, and `recordCount`. -/
structure DnsState where
  seenResolutions : List String
  requestUrls : List (String × String)
  records : List DnsRecord
  recordCount : Nat
deriving Repr, DecidableEq

/-- CDP network events consumed by the dns hook's listeners. A missing
`response.url` or `response.remoteIPAddress` is modelled by the empty string,
as in JS falsiness. -/
inductive CdpEvent where
  | requestWillBeSent (requestId url : String)
  | responseReceived (requestId url remoteIPAddress : String) (remotePort : Option Nat)
  | loadingFailed (requestId errorText : String)
deriving Repr, DecidableEq

/-- Initial listener state of a dns hook process. -/
def dnsInitialState : DnsState :=
  { seenResolutions := [], requestUrls := [], records := [], recordCount := 0 }

/-- Models one event dispatch through the dns hook's three CDP listeners
(lines 75-184). -/
def dnsStep (st : DnsState) (ev : CdpEvent) : DnsState :=
  match ev with
  | .requestWillBeSent rid u =>
    { st with requestUrls := jsMapSet st.requestUrls rid u }
  | .responseReceived rid u ip port =>
    if u.isEmpty || ip.isEmpty then st
    else
      match extractHostname u with
      | none => st
      | some hostname =>
        if hostname == ip then st
        else
          let resolutionKey := hostname ++ ":" ++ ip
          if st.seenResolutions.contains resolutionKey then st
          else
            let recordType := if ip.data.contains ':' then "AAAA" else "A"
            let protocol := if jsStartsWith u "https://" then "https" else "http"
            { st with
              seenResolutions := resolutionKey :: st.seenResolutions,
              records := st.records ++
                [{ hostname := hostname, ip := some ip, port := port,
                   rtype := recordType, protocol := protocol, url := u,
                   requestId := rid, error := none }],
              recordCount := st.recordCount + 1 }
  | .loadingFailed rid errorText =>
    match jsMapGet st.requestUrls rid with
    | none => st
    | some u =>
      if u.isEmpty then st
      else
        match extractHostname u with
        | none => st
        | some hostname =>
          if isNameResolutionError errorText then
            let resolutionKey := hostname ++ ":NXDOMAIN"
            if st.seenResolutions.contains resolutionKey then st
            else
              let protocol := if jsStartsWith u "https://" then "https" else "http"
              { st with
                seenResolutions := resolutionKey :: st.seenResolutions,
                records := st.records ++
                  [{ hostname := hostname, ip := none, port := none,
                     rtype := "NXDOMAIN", protocol := protocol, url := u,
                     requestId := rid, error := some errorText }],
                recordCount := st.recordCount + 1 }
          else st

/-- Runs the dns hook's listeners over a snapshot's event stream. -/
def dnsRun (events : List CdpEvent) : DnsState :=
  events.foldl dnsStep dnsInitialState

/-- Predicate for a record of the (hostname, address) pair `(h, a)`. -/
def pairMatch (h a : String) (r : DnsRecord) : Bool :=
  r.hostname == h && r.ip == some a

/-- Number of output records for the (hostname, address) pair `(h, a)`. -/
def countPairRecords (st : DnsState) (h a : String) : Nat :=
  (st.records.filter (pairMatch h a)).length

/-- Predicate for an NXDOMAIN sentinel record of hostname `h`. -/
def nxMatch (h : String) (r : DnsRecord) : Bool :=
  r.hostname == h && r.rtype == "NXDOMAIN"

/-- Number of NXDOMAIN sentinel records for hostname `h`. -/
def countNxRecords (st : DnsState) (h : String) : Nat :=
  (st.records.filter (nxMatch h)).length

/-- Helper: a `responseReceived` event whose (hostname, address) key is
already in `seenResolutions` leaves the listener state unchanged. -/
theorem dnsStep_response_seen (st : DnsState) (rid u ip : String)
    (port : Option Nat) (h : String)
    (hu : u.isEmpty = false) (hip : ip.isEmpty = false)
    (hH : extractHostname u = some h) (hne : (h == ip) = false)
    (hseen : st.seenResolutions.contains (h ++ ":" ++ ip) = true) :
    dnsStep st (.responseReceived rid u ip port) = st := by
  have hm : (h ++ ":" ++ ip) ∈ st.seenResolutions := by simpa using hseen
  simp [dnsStep, hu, hip, hH, hne, hm]

/-- Helper: a `responseReceived` event whose (hostname, address) key is new
appends exactly one A/AAAA record and marks the key seen. -/
theorem dnsStep_response_new (st : DnsState) (rid u ip : String)
    (port : Option Nat) (h : String)
    (hu : u.isEmpty = false) (hip : ip.isEmpty = false)
    (hH : extractHostname u = some h) (hne : (h == ip) = false)
    (hseen : st.seenResolutions.contains (h ++ ":" ++ ip) = false) :
    dnsStep st (.responseReceived rid u ip port) =
      { st with
        seenResolutions := (h ++ ":" ++ ip) :: st.seenResolutions,
        records := st.records ++
          [{ hostname := h, ip := some ip, port := port,
             rtype := if ip.data.contains ':' then "AAAA" else "A",
             protocol := if jsStartsWith u "https://" then "https" else "http",
             url := u, requestId := rid, error := none }],
        recordCount := st.recordCount + 1 } := by
  have hm : (h ++ ":" ++ ip) ∉ st.seenResolutions := by simpa using hseen
  simp [dnsStep, hu, hip, hH, hne, hm]

/-- Helper: the NXDOMAIN record appended by the loadingFailed listener for
hostname `hostname`. -/
def nxRecordOf (hostname u rid errorText : String) : DnsRecord :=
  { hostname := hostname, ip := none, port := none, rtype := "NXDOMAIN",
    protocol := if jsStartsWith u "https://" then "https" else "http",
    url := u, requestId := rid, error := some errorText }

/-- Helper: a `loadingFailed` event with a tracked URL, a parsed hostname, a
name-resolution error text and an unseen NXDOMAIN key appends exactly one
NXDOMAIN record and marks the key seen. -/
theorem dnsStep_loading_failed_new (st : DnsState) (rid errorText u hostname : String)
    (hG : jsMapGet st.requestUrls rid = some u) (hu : u.isEmpty = false)
    (hH : extractHostname u = some hostname)
    (herr : isNameResolutionError errorText = true)
    (hseen : (hostname ++ ":NXDOMAIN") ∉ st.seenResolutions) :
    dnsStep st (.loadingFailed rid errorText) =
      { st with
        seenResolutions := (hostname ++ ":NXDOMAIN") :: st.seenResolutions,
        records := st.records ++ [nxRecordOf hostname u rid errorText],
        recordCount := st.recordCount + 1 } := by
  simp [dnsStep, hG, hu, hH, herr, hseen, nxRecordOf]

/-- Helper: one listener step preserves "at most one NXDOMAIN record per
hostname, and if one exists its key is in seenResolutions". -/
theorem dnsStep_nx_bound (hst : String) (st : DnsState) (ev : CdpEvent)
    (h₁ : countNxRecords st hst ≤ 1)
    (h₂ : countNxRecords st hst = 1 → (hst ++ ":NXDOMAIN") ∈ st.seenResolutions) :
    countNxRecords (dnsStep st ev) hst ≤ 1 ∧
    (countNxRecords (dnsStep st ev) hst = 1 →
      (hst ++ ":NXDOMAIN") ∈ (dnsStep st ev).seenResolutions) := by
  have hA : (("AAAA" : String) == "NXDOMAIN") = false := by decide
  have hA2 : (("A" : String) == "NXDOMAIN") = false := by decide
  cases ev with
  | requestWillBeSent rid u =>
    simpa [dnsStep, countNxRecords] using ⟨h₁, h₂⟩
  | responseReceived rid u ip port =>
    by_cases hu : (u.isEmpty || ip.isEmpty) = true
    · simpa [dnsStep, hu] using ⟨h₁, h₂⟩
    · simp only [Bool.or_eq_true, not_or, Bool.not_eq_true] at hu
      rcases hH : extractHostname u with _ | hostname
      · simpa [dnsStep, hu.1, hu.2, hH] using ⟨h₁, h₂⟩
      · by_cases hipeq : (hostname == ip) = true
        · simpa [dnsStep, hu.1, hu.2, hH, hipeq] using ⟨h₁, h₂⟩
        · have hipeq' : (hostname == ip) = false := by
            simpa using hipeq
          by_cases hseen : st.seenResolutions.contains (hostname ++ ":" ++ ip) = true
          · rw [dnsStep_response_seen st rid u ip port hostname hu.1 hu.2 hH hipeq' hseen]
            exact ⟨h₁, h₂⟩
          · have hseen' : st.seenResolutions.contains (hostname ++ ":" ++ ip) = false := by
              simpa using hseen
            rw [dnsStep_response_new st rid u ip port hostname hu.1 hu.2 hH hipeq' hseen']
            have hflt : (List.filter (nxMatch hst)
                [{ hostname := hostname, ip := some ip, port := port,
                   rtype := if ip.data.contains ':' then "AAAA" else "A",
                   protocol := if jsStartsWith u "https://" then "https" else "http",
                   url := u, requestId := rid, error := none }]).length = 0 := by
              cases hc : ip.data.contains ':' <;>
                simp [List.filter, nxMatch, hc, hA, hA2]
            constructor
            · have hgoal : countNxRecords st hst +
                  (List.filter (nxMatch hst)
                    [{ hostname := hostname, ip := some ip, port := port,
                       rtype := if ip.data.contains ':' then "AAAA" else "A",
                       protocol := if jsStartsWith u "https://" then "https" else "http",
                       url := u, requestId := rid, error := none }]).length ≤ 1 := by
                rw [hflt]
                simpa using h₁
              simpa [countNxRecords, List.filter_append] using hgoal
            · intro hcnt
              have h1' : countNxRecords st hst = 1 := by
                have := hcnt
                simp only [countNxRecords, List.filter_append, List.length_append] at this
                rw [hflt] at this
                simpa [countNxRecords] using this
              exact List.mem_cons_of_mem _ (h₂ h1')
  | loadingFailed rid errorText =>
    rcases hG : jsMapGet st.requestUrls rid with _ | u
    · simpa [dnsStep, hG] using ⟨h₁, h₂⟩
    · by_cases hu : u.isEmpty = true
      · simpa [dnsStep, hG, hu] using ⟨h₁, h₂⟩
      · have hu' : u.isEmpty = false := by simpa using hu
        rcases hH : extractHostname u with _ | hostname
        · simpa [dnsStep, hG, hu', hH] using ⟨h₁, h₂⟩
        · by_cases herr : isNameResolutionError errorText = true
          · by_cases hseen : (hostname ++ ":NXDOMAIN") ∈ st.seenResolutions
            · simpa [dnsStep, hG, hu', hH, herr, hseen] using ⟨h₁, h₂⟩
            · rw [dnsStep_loading_failed_new st rid errorText u hostname hG hu' hH herr hseen]
              by_cases hh : (hostname == hst) = true
              · have hhe : hostname = hst := eq_of_beq hh
                subst hhe
                have h0 : countNxRecords st hostname = 0 := by
                  rcases Nat.le_one_iff_eq_zero_or_eq_one.mp h₁ with h0 | h1
                  · exact h0
                  · exact absurd (h₂ h1) hseen
                have hflt : (List.filter (nxMatch hostname)
                    [nxRecordOf hostname u rid errorText]).length = 1 := by
                  simp [List.filter, nxMatch, nxRecordOf]
                constructor
                · simp only [countNxRecords, List.filter_append, List.length_append]
                  simp only [countNxRecords] at h0
                  rw [h0, hflt]
                · intro _
                  exact List.mem_cons_self _ _
              · have hh' : (hostname == hst) = false := by simpa using hh
                have hflt : (List.filter (nxMatch hst)
                    [nxRecordOf hostname u rid errorText]).length = 0 := by
                  simp [List.filter, nxMatch, nxRecordOf, hh']
                constructor
                · have hgoal : countNxRecords st hst +
                      (List.filter (nxMatch hst) [nxRecordOf hostname u rid errorText]).length ≤ 1 := by
                    rw [hflt]; simpa using h₁
                  simpa [countNxRecords, List.filter_append] using hgoal
                · intro hcnt
                  have h1' : countNxRecords st hst = 1 := by
                    have := hcnt
                    simp only [countNxRecords, List.filter_append, List.length_append] at this
                    rw [hflt] at this
                    simpa [countNxRecords] using this
                  exact List.mem_cons_of_mem _ (h₂ h1')
          · simpa [dnsStep, hG, hu', hH, herr] using ⟨h₁, h₂⟩

/-- Helper: folding the dns listeners preserves the NXDOMAIN bound. -/
theorem dnsRun_nx_le_one_aux (hst : String) :
    ∀ (events : List CdpEvent) (st : DnsState),
      countNxRecords st hst ≤ 1 →
      (countNxRecords st hst = 1 → (hst ++ ":NXDOMAIN") ∈ st.seenResolutions) →
      countNxRecords (events.foldl dnsStep st) hst ≤ 1
  | [], st, h₁, _ => by simpa using h₁
  | ev :: evs, st, h₁, h₂ => by
    rw [List.foldl_cons]
    obtain ⟨g₁, g₂⟩ := dnsStep_nx_bound hst st ev h₁ h₂
    exact dnsRun_nx_le_one_aux hst evs (dnsStep st ev) g₁ g₂

/-- Helper: once the (h, a) resolution key is seen, any further responses
resolving some URL with hostname `h` to address `a` leave the state
unchanged. -/
theorem dns_shaped_fold_noop (h a : String) (ha : a.isEmpty = false)
    (hne : (h == a) = false) :
    ∀ (events : List CdpEvent) (st : DnsState),
      (∀ ev ∈ events, ∃ rid u port, ev = CdpEvent.responseReceived rid u a port ∧
        u.isEmpty = false ∧ extractHostname u = some h) →
      st.seenResolutions.contains (h ++ ":" ++ a) = true →
      events.foldl dnsStep st = st
  | [], _, _, _ => rfl
  | ev :: evs, st, hsh, hc => by
    obtain ⟨rid, u, port, hev, hu, hH⟩ := hsh ev (List.mem_cons_self ev evs)
    subst hev
    rw [List.foldl_cons, dnsStep_response_seen st rid u a port h hu ha hH hne hc]
    exact dns_shaped_fold_noop h a ha hne evs st
      (fun e he => hsh e (List.mem_cons_of_mem _ he)) hc

/-- Helper: the `hostname ++ ":" ++ address` de-duplication key determines
the address for a fixed hostname. -/
theorem dns_key_inj {h a b : String} (heq : h ++ ":" ++ a = h ++ ":" ++ b) :
    a = b := by
  have hd := congrArg String.data heq
  simp only [String.data_append] at hd
  exact String.ext (List.append_cancel_left hd)

/-- Claim C7 (confirmed): per snapshot run of the DNS recorder, (1) any
non-empty stream of responses resolving hostname `h` to the same address `a`
yields exactly one (h, a) record; (2) two responses resolving the same
hostname to two distinct addresses yield two records, one per pair; (3) for
every event stream and hostname, at most one NXDOMAIN sentinel record is
produced. -/
theorem c7_dns_dedup :
    (∀ (events : List CdpEvent) (h a : String),
      events ≠ [] →
      (∀ ev ∈ events, ∃ rid u port, ev = CdpEvent.responseReceived rid u a port ∧
        u.isEmpty = false ∧ extractHostname u = some h) →
      a.isEmpty = false → (h == a) = false →
      countPairRecords (dnsRun events) h a = 1) ∧
    (∀ (rid₁ u₁ rid₂ u₂ h a₁ a₂ : String) (p₁ p₂ : Option Nat),
      u₁.isEmpty = false → u₂.isEmpty = false →
      a₁.isEmpty = false → a₂.isEmpty = false →
      extractHostname u₁ = some h → extractHostname u₂ = some h →
      (h == a₁) = false → (h == a₂) = false → a₁ ≠ a₂ →
      (dnsRun [CdpEvent.responseReceived rid₁ u₁ a₁ p₁,
               CdpEvent.responseReceived rid₂ u₂ a₂ p₂]).records.length = 2 ∧
      countPairRecords (dnsRun [CdpEvent.responseReceived rid₁ u₁ a₁ p₁,
               CdpEvent.responseReceived rid₂ u₂ a₂ p₂]) h a₁ = 1 ∧
      countPairRecords (dnsRun [CdpEvent.responseReceived rid₁ u₁ a₁ p₁,
               CdpEvent.responseReceived rid₂ u₂ a₂ p₂]) h a₂ = 1) ∧
    (∀ (events : List CdpEvent) (h : String),
      countNxRecords (dnsRun events) h ≤ 1) := by
  refine ⟨?_, ?_, ?_⟩
  · intro events h a hne hsh ha hha
    cases events with
    | nil => exact absurd rfl hne
    | cons e evs =>
      obtain ⟨rid, u, port, hev, hu, hH⟩ := hsh e (List.mem_cons_self e evs)
      subst hev
      unfold dnsRun
      rw [List.foldl_cons,
        dnsStep_response_new dnsInitialState rid u a port h hu ha hH hha rfl,
        dns_shaped_fold_noop h a ha hha evs _
          (fun e he => hsh e (List.mem_cons_of_mem _ he)) (by simp [dnsInitialState])]
      simp [countPairRecords, dnsInitialState, List.filter, pairMatch]
  · intro rid₁ u₁ rid₂ u₂ h a₁ a₂ p₁ p₂ hu₁ hu₂ ha₁ ha₂ hH₁ hH₂ hha₁ hha₂ h12
    have hkne : ((h ++ ":" ++ a₂) == (h ++ ":" ++ a₁)) = false :=
      beq_eq_false_iff_ne.mpr (fun hq => h12 (dns_key_inj hq).symm)
    have hck : (((h ++ ":" ++ a₁) :: dnsInitialState.seenResolutions)).contains
        (h ++ ":" ++ a₂) = false := by
      simp only [dnsInitialState, List.contains_cons, List.contains_nil, Bool.or_false]
      exact hkne
    unfold dnsRun
    rw [List.foldl_cons,
      dnsStep_response_new dnsInitialState rid₁ u₁ a₁ p₁ h hu₁ ha₁ hH₁ hha₁ rfl,
      List.foldl_cons,
      dnsStep_response_new _ rid₂ u₂ a₂ p₂ h hu₂ ha₂ hH₂ hha₂ hck]
    have hba : (a₂ == a₁) = false := beq_eq_false_iff_ne.mpr (Ne.symm h12)
    have hab : (a₁ == a₂) = false := beq_eq_false_iff_ne.mpr h12
    refine ⟨?_, ?_, ?_⟩ <;>
      simp [countPairRecords, dnsInitialState, List.filter, pairMatch, hba, hab]
  · intro events h
    exact dnsRun_nx_le_one_aux h events dnsInitialState
      (by simp [countNxRecords, dnsInitialState])
      (by simp [countNxRecords, dnsInitialState])

/-- Witness for C7's theorem at concrete events: one repeated IPv4
resolution of example.com, a second distinct IPv6 resolution, and the empty
event stream for the NXDOMAIN bound. -/
theorem c7_dns_dedup_witness :
    countPairRecords
      (dnsRun [CdpEvent.responseReceived "r1" "https://example.com/" "93.184.216.34" none,
               CdpEvent.responseReceived "r2" "https://example.com/" "93.184.216.34" none])
      "example.com" "93.184.216.34" = 1 ∧
    (dnsRun [CdpEvent.responseReceived "r1" "https://example.com/" "93.184.216.34" none,
             CdpEvent.responseReceived "r2" "https://example.com/" "2606:2800:220:1:248:1893:25c8:1946" none]).records.length = 2 ∧
    countNxRecords (dnsRun []) "example.com" ≤ 1 := by
  refine ⟨?_, ?_, ?_⟩
  · exact c7_dns_dedup.1 _ "example.com" "93.184.216.34" (by simp)
      (by
        intro ev hev
        simp only [List.mem_cons, List.not_mem_nil, or_false] at hev
        rcases hev with hev | hev <;> subst hev
        · exact ⟨"r1", "https://example.com/", none, rfl, by decide, by decide⟩
        · exact ⟨"r2", "https://example.com/", none, rfl, by decide, by decide⟩)
      (by decide) (by decide)
  · exact (c7_dns_dedup.2.1 "r1" "https://example.com/" "r2" "https://example.com/"
      "example.com" "93.184.216.34" "2606:2800:220:1:248:1893:25c8:1946" none none
      (by decide) (by decide) (by decide) (by decide) (by decide) (by decide)
      (by decide) (by decide) (by decide)).1
  · exact c7_dns_dedup.2.2 [] "example.com"

/-! ## Static-file downloader hook (staticfile/on_Snapshot__26_staticfile.bg.js)

`setupStaticFileListener` (lines 152-228) installs a response listener that
inspects only the first same-URL 2xx response: it records the Content-Type,
checks it against an exact allow-list plus prefix list, size-caps the body,
derives a sanitized filename from the content-disposition header (regex
`/filename[*]?=["']?([^"';\n]+)/`) or else the URL path, and writes the file.
`handleShutdown` (lines 230-283) turns the accumulated state into the single
ArchiveResult. -/

/-- The exact Content-Type allow-list `STATIC_CONTENT_TYPES`
(lines 35-101). -/
def staticContentTypes : List String :=
  ["application/pdf", "application/msword",
   "application/vnd.openxmlformats-officedocument.wordprocessingml.document",
   "application/vnd.ms-excel",
   "application/vnd.openxmlformats-officedocument.spreadsheetml.sheet",
   "application/vnd.ms-powerpoint",
   "application/vnd.openxmlformats-officedocument.presentationml.presentation",
   "application/rtf", "application/epub+zip",
   "image/png", "image/jpeg", "image/gif", "image/webp", "image/svg+xml",
   "image/x-icon", "image/bmp", "image/tiff", "image/avif", "image/heic",
   "image/heif",
   "audio/mpeg", "audio/mp3", "audio/wav", "audio/flac", "audio/aac",
   "audio/ogg", "audio/webm", "audio/m4a", "audio/opus",
   "video/mp4", "video/webm", "video/x-matroska", "video/avi",
   "video/quicktime", "video/x-ms-wmv", "video/x-flv",
   "application/zip", "application/x-tar", "application/gzip",
   "application/x-bzip2", "application/x-xz", "application/x-7z-compressed",
   "application/x-rar-compressed", "application/vnd.rar",
   "application/json", "application/xml", "text/csv", "text/xml",
   "application/x-yaml",
   "application/octet-stream", "application/x-executable",
   "application/x-msdos-program", "application/x-apple-diskimage",
   "application/vnd.debian.binary-package", "application/x-rpm",
   "application/x-bittorrent", "application/wasm"]

/-- The Content-Type prefix allow-list `STATIC_CONTENT_TYPE_PREFIXES`
(lines 103-109). -/
def staticContentTypePrefixes : List String :=
  ["image/", "audio/", "video/", "application/zip", "application/x-"]

/-- Models `isStaticContentType` (lines 120-134). -/
def isStaticContentType (contentType : String) : Bool :=
  if contentType.isEmpty then false
  else
    let ct := jsToLower (jsTrim ((jsSplitOnChar ';' contentType).headD ""))
    staticContentTypes.contains ct ||
      staticContentTypePrefixes.any (fun p => jsStartsWith ct p)

/-- Models `sanitizeFilename` (lines 136-140): replace every character
outside `[a-zA-Z0-9._-]` with an underscore, then truncate. -/
def sanitizeFilename (s : String) (maxLen : Nat := 200) : String :=
  ⟨(s.data.map (fun c =>
      if c.isAlphanum || c == '.' || c == '_' || c == '-' then c else '_')).take maxLen⟩

/-- Models `new URL(url).pathname` for ordinary http/https URLs: the
characters from the first '/' after the authority up to '?' or '#', or "/"
when the path is empty; `none` models the URL constructor throwing. -/
def urlPathname (url : String) : Option String :=
  match findSchemeSplit url.data [] with
  | none => none
  | some (scheme, rest) =>
    if scheme.isEmpty || rest.isEmpty then none
    else
      let afterHost := rest.dropWhile (fun c => !(c == '/' || c == '?' || c == '#'))
      match afterHost with
      | '/' :: _ => some ⟨afterHost.takeWhile (fun c => !(c == '?' || c == '#'))⟩
      | _ => some "/"

/-- Models Node `path.basename` for simple paths: the last non-empty
slash-separated component (trailing slashes ignored), or "" for "/". -/
def pathBasename (p : String) : String :=
  ((jsSplitOnChar '/' p).filter (fun s => !s.isEmpty)).getLastD ""

/-- Models `getFilenameFromUrl` (lines 142-150). -/
def getFilenameFromUrl (url : String) : String :=
  match urlPathname url with
  | none => "downloaded_file"
  | some pathname =>
    let b := pathBasename pathname
    let filename := if b.isEmpty then "downloaded_file" else b
    sanitizeFilename filename

/-- The single-quote character (written by code point to keep the source
free of nested quote literals). -/
def squote : Char := Char.ofNat 39

/-- Character class `[^"';\n]` of the filename-capture regex. -/
def isCaptureChar (c : Char) : Bool :=
  !(c == '"' || c == squote || c == ';' || c == '\n')

/-- The `["']?([^"';\n]+)` suffix of the filename regex: an optional opening
quote, then one or more capture characters. -/
def matchCaptureAfterEq : List Char → Option String
  | [] => none
  | c :: t =>
    let capture := fun (l : List Char) =>
      let cap := l.takeWhile isCaptureChar
      if cap.isEmpty then none else some (⟨cap⟩ : String)
    if c == '"' || c == squote then capture t else capture (c :: t)

/-- Tries the regex `filename[*]?=["']?([^"';\n]+)` anchored at the start of
the character list. -/
def matchFilenameHead (cs : List Char) : Option String :=
  if "filename".data.isPrefixOf cs then
    match cs.drop 8 with
    | '*' :: '=' :: t => matchCaptureAfterEq t
    | '=' :: t => matchCaptureAfterEq t
    | _ => none
  else none

/-- Scans left to right for the first regex match position. -/
def matchFilenameAux : List Char → Option String
  | [] => none
  | c :: t =>
    match matchFilenameHead (c :: t) with
    | some r => some r
    | none => matchFilenameAux t

/-- Models the JS `contentDisp.match(/filename[*]?=["']?([^"';\n]+)/)`
capture group (line 209). -/
def matchFilename (s : String) : Option String :=
  matchFilenameAux s.data

/-- One browser response as seen by the staticfile listener: URL, status,
the content-type and content-disposition headers ('' when absent), and the
body (`.error` models `response.buffer()` throwing). -/
structure SfResponse where
  url : String
  status : Nat
  contentType : String
  contentDisposition : String
  body : Except String String
deriving Repr

/-- Per-process state of the staticfile hook (the module globals
`detectedContentType`, `isStaticFile`, `downloadedFilePath`,
`downloadError`, the closure flag `firstResponseHandled`, and the files
written to disk). -/
structure SfState where
  firstResponseHandled : Bool
  detectedContentType : Option String
  isStaticFile : Bool
  downloadedFilePath : Option String
  downloadError : Option String
  writtenFiles : List (String × String)
deriving Repr, DecidableEq

/-- Initial state of a staticfile hook process. -/
def sfInitialState : SfState :=
  { firstResponseHandled := false, detectedContentType := none,
    isStaticFile := false, downloadedFilePath := none, downloadError := none,
    writtenFiles := [] }

/-- Models the response listener of `setupStaticFileListener`
(lines 167-225). -/
def sfOnResponse (originalUrl : String) (maxSize : Nat) (st : SfState)
    (r : SfResponse) : SfState :=
  if st.firstResponseHandled then st
  else if r.url != originalUrl then st
  else if r.status < 200 ∨ 300 ≤ r.status then st
  else
    let detected := jsTrim ((jsSplitOnChar ';' r.contentType).headD "")
    let st₁ := { st with
      firstResponseHandled := true,
      detectedContentType := some detected }
    if !(isStaticContentType detected) then st₁
    else
      let st₂ := { st₁ with isStaticFile := true }
      match r.body with
      | .error e => { st₂ with downloadError := some e }
      | .ok buf =>
        if buf.length > maxSize then
          let blen := buf.length
          { st₂ with downloadError := some s!"File too large: {blen} bytes > {maxSize} max" }
        else
          let filename₀ := getFilenameFromUrl r.url
          let filename :=
            if strIncludes r.contentDisposition "filename=" then
              match matchFilename r.contentDisposition with
              | some m => sanitizeFilename (jsTrim m)
              | none => filename₀
            else filename₀
          { st₂ with
            writtenFiles := st₂.writtenFiles ++ [(filename, buf)],
            downloadedFilePath := some filename }

/-- Models `handleShutdown` (lines 230-283): the single ArchiveResult
synthesized from the accumulated state on the termination signal (the JS
guard `if (!detectedContentType)` is falsy both for a missing and for an
empty detected Content-Type). -/
def sfHandleShutdown (st : SfState) : ArchiveResult :=
  match st.detectedContentType with
  | none => ⟨"skipped", "No Content-Type detected"⟩
  | some ct =>
    if ct.isEmpty then ⟨"skipped", "No Content-Type detected"⟩
    else if !st.isStaticFile then
      ⟨"skipped", "Not a static file (Content-Type: " ++ ct ++ ")"⟩
    else
      match st.downloadError with
      | some e => ⟨"failed", e⟩
      | none =>
        match st.downloadedFilePath with
        | some p => ⟨"succeeded", p⟩
        | none => ⟨"failed", "Static file detected but download did not complete"⟩

/-- The response of claim C8's scenario: a response for the navigated URL
with Content-Type application/pdf and header
`content-disposition: attachment; filename="x.pdf"`. -/
def pdfAttachmentResponse (url : String) (status : Nat) (buf : String) : SfResponse :=
  { url := url, status := status, contentType := "application/pdf",
    contentDisposition := "attachment; filename=\"x.pdf\"", body := .ok buf }

/-- Claim C8 (confirmed): when the first response for the navigated URL is a
2xx response with Content-Type application/pdf and header
`content-disposition: attachment; filename="x.pdf"` whose body fits the size
cap, the staticfile hook writes the body to a file named `x.pdf`, its final
result on termination is `{status:"succeeded", output_str:"x.pdf"}`, and once
a response has been handled every later response is ignored (only the first
same-URL response is ever inspected). -/
theorem c8_staticfile_pdf_scenario
    (originalUrl buf : String) (maxSize status : Nat)
    (h200 : 200 ≤ status) (h300 : status < 300)
    (hbuf : buf.length ≤ maxSize) :
    sfOnResponse originalUrl maxSize sfInitialState
        (pdfAttachmentResponse originalUrl status buf) =
      { firstResponseHandled := true,
        detectedContentType := some "application/pdf",
        isStaticFile := true, downloadedFilePath := some "x.pdf",
        downloadError := none, writtenFiles := [("x.pdf", buf)] } ∧
    sfHandleShutdown (sfOnResponse originalUrl maxSize sfInitialState
        (pdfAttachmentResponse originalUrl status buf)) =
      ⟨"succeeded", "x.pdf"⟩ ∧
    (∀ (st : SfState) (r₂ : SfResponse), st.firstResponseHandled = true →
      sfOnResponse originalUrl maxSize st r₂ = st) := by
  have hst : ¬(status < 200 ∨ 300 ≤ status) := by omega
  have hb : ¬(buf.length > maxSize) := by omega
  have hdet : jsTrim ((jsSplitOnChar ';' "application/pdf").head?.getD "") =
      "application/pdf" := by decide
  have hsc : isStaticContentType "application/pdf" = true := by decide
  have hinc : strIncludes "attachment; filename=\"x.pdf\"" "filename=" = true := by
    decide
  have hm : matchFilename "attachment; filename=\"x.pdf\"" = some "x.pdf" := by
    decide
  have hsan : sanitizeFilename (jsTrim "x.pdf") = "x.pdf" := by decide
  have h1 : sfOnResponse originalUrl maxSize sfInitialState
      (pdfAttachmentResponse originalUrl status buf) =
      { firstResponseHandled := true,
        detectedContentType := some "application/pdf",
        isStaticFile := true, downloadedFilePath := some "x.pdf",
        downloadError := none, writtenFiles := [("x.pdf", buf)] } := by
    simp [sfOnResponse, pdfAttachmentResponse, sfInitialState, hst, hb, hdet,
      hsc, hinc, hm, hsan]
  refine ⟨h1, ?_, ?_⟩
  · rw [h1]
    rfl
  · intro st r₂ hf
    simp [sfOnResponse, hf]

/-- Witness for C8's theorem: a 200 response for a concrete URL with a small
body, followed by a second response that is ignored. -/
theorem c8_staticfile_pdf_scenario_witness :
    sfOnResponse "https://example.com/files/report" 1000 sfInitialState
        (pdfAttachmentResponse "https://example.com/files/report" 200 "PDFDATA") =
      { firstResponseHandled := true,
        detectedContentType := some "application/pdf",
        isStaticFile := true, downloadedFilePath := some "x.pdf",
        downloadError := none, writtenFiles := [("x.pdf", "PDFDATA")] } ∧
    sfHandleShutdown (sfOnResponse "https://example.com/files/report" 1000
        sfInitialState
        (pdfAttachmentResponse "https://example.com/files/report" 200 "PDFDATA")) =
      ⟨"succeeded", "x.pdf"⟩ ∧
    sfOnResponse "https://example.com/files/report" 1000
        (sfOnResponse "https://example.com/files/report" 1000 sfInitialState
          (pdfAttachmentResponse "https://example.com/files/report" 200 "PDFDATA"))
        (pdfAttachmentResponse "https://example.com/files/report" 200 "OTHER") =
      sfOnResponse "https://example.com/files/report" 1000 sfInitialState
        (pdfAttachmentResponse "https://example.com/files/report" 200 "PDFDATA") := by
  have h := c8_staticfile_pdf_scenario "https://example.com/files/report"
    "PDFDATA" 1000 200 (by decide) (by decide) (by decide)
  exact ⟨h.1, h.2.1, h.2.2 _ _ (by rw [h.1])⟩

/-! ## Cookie import (chrome_utils.ts second file, chrome_launch hook)

`parseCookiesTxt` (lines 2030-2083) parses a Netscape-format cookie file:
lines are trimmed; empty lines skipped; a `#HttpOnly_` prefix is stripped and
remembered; other `#` lines are comments; fewer than 7 tab-separated fields,
or an empty name or domain, count as skipped (malformed); the domain gets a
leading dot added when the include-subdomains field is TRUE, or one leading
dot stripped when it is not. `importCookiesFromFile` (lines 2085-2133) then
sends the records via `Network.setCookies` in slices of at most 200. -/

/-- One parsed cookie record. -/
structure Cookie where
  name : String
  value : String
  domain : String
  path : String
  secure : Bool
  httpOnly : Bool
  expires : Option Int
deriving Repr, DecidableEq

/-- Classification of one line of the cookie file. -/
inductive CookieLineResult where
  | blank
  | comment
  | malformed
  | ok (c : Cookie)
deriving Repr, DecidableEq

/-- Models the two domain-adjustment statements at lines 2061-2063. -/
def adjustCookieDomain (includeSubdomains : Bool) (domainRaw : String) : String :=
  if includeSubdomains && !(jsStartsWith domainRaw ".") then "." ++ domainRaw
  else if !includeSubdomains && jsStartsWith domainRaw "." then jsDrop domainRaw 1
  else domainRaw

/-- Models the per-line body of the `parseCookiesTxt` loop
(lines 2034-2080). -/
def parseCookiesTxtLine (rawLine : String) : CookieLineResult :=
  let line := jsTrim rawLine
  if line.isEmpty then .blank
  else
    let httpOnly := jsStartsWith line "#HttpOnly_"
    let dataLine := if httpOnly then jsDrop line 10 else line
    if !httpOnly && jsStartsWith line "#" then .comment
    else
      let parts := jsSplitOnChar '\t' dataLine
      if parts.length < 7 then .malformed
      else
        let domainRaw := parts.getD 0 ""
        let includeSubdomainsRaw := parts.getD 1 ""
        let pathRaw := parts.getD 2 ""
        let secureRaw := parts.getD 3 ""
        let expiryRaw := parts.getD 4 ""
        let name := parts.getD 5 ""
        let value := parts.getD 6 ""
        if name.isEmpty || domainRaw.isEmpty then .malformed
        else
          let includeSubdomains := jsToUpper includeSubdomainsRaw == "TRUE"
          let expires := match jsParseInt expiryRaw with
            | some e => if e > 0 then some e else none
            | none => none
          .ok { name := name, value := value,
                domain := adjustCookieDomain includeSubdomains domainRaw,
                path := if pathRaw.isEmpty then "/" else pathRaw,
                secure := jsToUpper secureRaw == "TRUE", httpOnly := httpOnly,
                expires := expires }

/-- The parsed cookie of a line, when the line yields one. -/
def cookieOfLine (l : String) : Option Cookie :=
  match parseCookiesTxtLine l with
  | .ok c => some c
  | _ => none

/-- Whether a line counts towards the `skipped` malformed-line counter. -/
def isMalformedLine (l : String) : Bool :=
  match parseCookiesTxtLine l with
  | .malformed => true
  | _ => false

/-- Accumulator step of the `parseCookiesTxt` loop: ok lines append a
cookie, malformed lines bump the skipped counter, blank/comment lines do
nothing. -/
def parseCookieFoldStep (acc : List Cookie × Nat) (rawLine : String) :
    List Cookie × Nat :=
  match parseCookiesTxtLine rawLine with
  | .ok c => (acc.1 ++ [c], acc.2)
  | .malformed => (acc.1, acc.2 + 1)
  | _ => acc

/-- Models `parseCookiesTxt` (lines 2030-2083): returns the parsed cookies
and the count of skipped malformed lines. The JS splits on `/\r?\n/` and
trims each line; splitting on the newline character and trimming is
equivalent because the trim removes a trailing carriage return. -/
def parseCookiesTxt (contents : String) : List Cookie × Nat :=
  (jsSplitOnChar '\n' contents).foldl parseCookieFoldStep ([], 0)

/-- Models the batching loop of `importCookiesFromFile` (lines 2119-2129):
successive `cookies.slice(i, i + 200)` chunks. -/
def chunksOf200 : List Cookie → List (List Cookie)
  | [] => []
  | x :: xs => ((x :: xs).take 200) :: chunksOf200 ((x :: xs).drop 200)
termination_by l => l.length
decreasing_by simp [List.length_drop]; omega

/-- Helper: the cookie fold is filterMap on ok lines plus a count of
malformed lines. -/
theorem parseCookiesTxt_fold_aux :
    ∀ (lines : List String) (cs : List Cookie) (k : Nat),
      lines.foldl parseCookieFoldStep (cs, k) =
        (cs ++ lines.filterMap cookieOfLine,
         k + (lines.filter isMalformedLine).length)
  | [], cs, k => by simp
  | l :: ls, cs, k => by
    rw [List.foldl_cons]
    rcases hp : parseCookiesTxtLine l with _ | _ | _ | c
    · simp only [parseCookieFoldStep, hp]
      rw [parseCookiesTxt_fold_aux ls cs k]
      simp [cookieOfLine, isMalformedLine, hp]
    · simp only [parseCookieFoldStep, hp]
      rw [parseCookiesTxt_fold_aux ls cs k]
      simp [cookieOfLine, isMalformedLine, hp]
    · simp only [parseCookieFoldStep, hp]
      rw [parseCookiesTxt_fold_aux ls cs (k + 1)]
      simp [cookieOfLine, isMalformedLine, hp]
      omega
    · simp only [parseCookieFoldStep, hp]
      rw [parseCookiesTxt_fold_aux ls (cs ++ [c]) k]
      simp [cookieOfLine, isMalformedLine, hp]

/-- Claim C9, as stated, is false on its leading-dot biconditional: the
well-formed line `..example.com<TAB>FALSE<TAB>/<TAB>FALSE<TAB>0<TAB>session<TAB>abc`
has its include-subdomains field FALSE, yet the parsed record's domain
`.example.com` still begins with a dot — only ONE leading dot is stripped. -/
theorem c9_counterexample :
    parseCookiesTxtLine "..example.com\tFALSE\t/\tFALSE\t0\tsession\tabc" =
      CookieLineResult.ok
        { name := "session", value := "abc", domain := ".example.com",
          path := "/", secure := false, httpOnly := false, expires := none } ∧
    jsStartsWith ".example.com" "." = true := by
  constructor <;> decide

/-- Claim C9 (amended): (a) when the include-subdomains field is TRUE the
resulting domain always begins with a dot (one is added if missing); when it
is not TRUE a single leading dot is stripped if present (a domain beginning
with several dots keeps the remaining ones); (b) parsing skips and counts
every malformed line without aborting: the result is exactly the cookies of
the ok lines plus the count of malformed lines; (c) every bulk cookie-set
protocol call carries at most 200 records. -/
theorem c9_cookie_import :
    (∀ d : String, jsStartsWith (adjustCookieDomain true d) "." = true) ∧
    (∀ d : String, adjustCookieDomain false d =
      (if jsStartsWith d "." then jsDrop d 1 else d)) ∧
    (∀ contents : String,
      parseCookiesTxt contents =
        ((jsSplitOnChar '\n' contents).filterMap cookieOfLine,
         ((jsSplitOnChar '\n' contents).filter isMalformedLine).length)) ∧
    (∀ (cookies : List Cookie) (i : Nat),
      ((chunksOf200 cookies).getD i []).length ≤ 200) := by
  refine ⟨?_, ?_, ?_, ?_⟩
  · intro d
    cases hd : jsStartsWith d "." with
    | true => simp [adjustCookieDomain, hd]
    | false =>
      have hres : adjustCookieDomain true d = "." ++ d := by
        simp [adjustCookieDomain, hd]
      rw [hres]
      simp [jsStartsWith, String.data_append, List.prefix_append]
  · intro d
    cases hd : jsStartsWith d "." <;> simp [adjustCookieDomain, hd]
  · intro contents
    rw [parseCookiesTxt, parseCookiesTxt_fold_aux]
    simp
  · intro cookies
    induction cookies using chunksOf200.induct with
    | case1 =>
      intro i
      simp [chunksOf200]
    | case2 x xs ih =>
      intro i
      cases i with
      | zero =>
        simp only [chunksOf200, List.getD_cons_zero]
        exact List.length_take_le 200 (x :: xs)
      | succ n =>
        simpa [chunksOf200] using ih n

/-! ## Shared capture-hook connection utility (chrome_utils.ts, connectToPage
lines 1647-1696)

`connectToPage` waits for both marker files (`cdp_url.txt`, `target_id.txt`)
to exist, throws on timeout; reads the trimmed cdp URL and throws when it is
empty (JS falsiness); looks the persisted target id up among the browser's
pages only when the id is non-empty; silently falls back to the LAST page of
the page list when the id is empty or matches nothing; and throws only then
if no page exists at all. -/

/-- A browser page, identified by its target id. -/
structure PageT where
  targetId : String
deriving Repr, DecidableEq

/-- Models `connectToPage`: `sessionReady` is the outcome of
`waitForChromeSession` (both marker files appeared within the timeout);
`cdpUrlContent`/`targetIdContent` are the contents of the marker files;
`pages` is `browser.pages()`. -/
def connectToPage (sessionReady : Bool) (timeoutMs : Nat)
    (cdpUrlContent targetIdContent : String) (pages : List PageT) :
    Except String PageT :=
  if !sessionReady then
    .error s!"Chrome session not ready after {timeoutMs / 1000}s (chrome plugin must run first)"
  else
    let cdpUrl := jsTrim cdpUrlContent
    if cdpUrl == "" then .error "No Chrome session found (cdp_url.txt missing)"
    else
      let targetId := jsTrim targetIdContent
      let page₀ : Option PageT :=
        if targetId == "" then none
        else pages.find? (fun p => p.targetId == targetId)
      let page := match page₀ with
        | some p => some p
        | none => pages.getLast?
      match page with
      | some p => .ok p
      | none => .error "No page found in browser"

/-- Claim C10, as stated, is false on its throw enumeration: with the marker
files present (session wait succeeded) and a browser holding one open page,
an empty `cdp_url.txt` content still makes `connectToPage` throw ("No Chrome
session found") — a third throw condition beyond "marker files never appear"
and "zero pages". -/
theorem c10_counterexample :
    connectToPage true 60000 "" "tab-1" [⟨"tab-1"⟩] =
      .error "No Chrome session found (cdp_url.txt missing)" := by
  rfl

/-- Claim C10 (amended): `connectToPage` (1) throws the not-ready error when
the marker files never appear within the timeout; (2) throws "No Chrome
session found" when they appear but the cdp-url file content is empty after
trimming; (3) throws "No page found in browser" when the browser has zero
pages; (4) returns the page matching the persisted non-empty target id when
one matches; and (5) silently falls back to the last page in the browser's
page list — which may belong to a different snapshot — whenever the
persisted target id is empty or matches no open page. -/
theorem c10_connect_page_characterization :
    (∀ (timeoutMs : Nat) (cdp tid : String) (pages : List PageT),
      connectToPage false timeoutMs cdp tid pages =
        .error s!"Chrome session not ready after {timeoutMs / 1000}s (chrome plugin must run first)") ∧
    (∀ (timeoutMs : Nat) (cdp tid : String) (pages : List PageT),
      jsTrim cdp = "" →
      connectToPage true timeoutMs cdp tid pages =
        .error "No Chrome session found (cdp_url.txt missing)") ∧
    (∀ (timeoutMs : Nat) (cdp tid : String),
      jsTrim cdp ≠ "" →
      connectToPage true timeoutMs cdp tid [] =
        .error "No page found in browser") ∧
    (∀ (timeoutMs : Nat) (cdp tid : String) (pages : List PageT) (p : PageT),
      jsTrim cdp ≠ "" → jsTrim tid ≠ "" →
      pages.find? (fun q => q.targetId == jsTrim tid) = some p →
      connectToPage true timeoutMs cdp tid pages = .ok p) ∧
    (∀ (timeoutMs : Nat) (cdp tid : String) (pages : List PageT)
      (hne : pages ≠ []),
      jsTrim cdp ≠ "" →
      (jsTrim tid = "" ∨
        pages.find? (fun q => q.targetId == jsTrim tid) = none) →
      connectToPage true timeoutMs cdp tid pages = .ok (pages.getLast hne)) := by
  refine ⟨?_, ?_, ?_, ?_, ?_⟩
  · intro timeoutMs cdp tid pages
    simp [connectToPage]
  · intro timeoutMs cdp tid pages h
    simp [connectToPage, h]
  · intro timeoutMs cdp tid h
    simp [connectToPage, beq_eq_false_iff_ne.mpr h]
  · intro timeoutMs cdp tid pages p hc ht hf
    simp [connectToPage, beq_eq_false_iff_ne.mpr hc, beq_eq_false_iff_ne.mpr ht, hf]
  · intro timeoutMs cdp tid pages hne hc hfall
    rcases hfall with ht | hf
    · simp [connectToPage, beq_eq_false_iff_ne.mpr hc, ht,
        List.getLast?_eq_getLast pages hne]
    · by_cases ht : jsTrim tid = ""
      · simp [connectToPage, beq_eq_false_iff_ne.mpr hc, ht,
          List.getLast?_eq_getLast pages hne]
      · simp [connectToPage, beq_eq_false_iff_ne.mpr hc,
          beq_eq_false_iff_ne.mpr ht, hf,
          List.getLast?_eq_getLast pages hne]

/-- Witness for C10's amended theorem: concrete marker contents and a
two-page browser, exercising all five cases. -/
theorem c10_connect_page_characterization_witness :
    connectToPage false 60000 "ws://127.0.0.1:9222/x" "tab-1" [] =
      .error "Chrome session not ready after 60s (chrome plugin must run first)" ∧
    connectToPage true 60000 " " "tab-1" [⟨"tab-1"⟩] =
      .error "No Chrome session found (cdp_url.txt missing)" ∧
    connectToPage true 60000 "ws://127.0.0.1:9222/x" "tab-1" [] =
      .error "No page found in browser" ∧
    connectToPage true 60000 "ws://127.0.0.1:9222/x" "tab-1"
      [⟨"tab-1"⟩, ⟨"tab-2"⟩] = .ok ⟨"tab-1"⟩ ∧
    connectToPage true 60000 "ws://127.0.0.1:9222/x" "missing-tab"
      [⟨"tab-1"⟩, ⟨"tab-2"⟩] = .ok ⟨"tab-2"⟩ := by
  obtain ⟨h1, h2, h3, h4, h5⟩ := c10_connect_page_characterization
  refine ⟨h1 60000 "ws://127.0.0.1:9222/x" "tab-1" [], ?_, ?_, ?_, ?_⟩
  · exact h2 60000 " " "tab-1" [⟨"tab-1"⟩] (by decide)
  · exact h3 60000 "ws://127.0.0.1:9222/x" "tab-1" (by decide)
  · exact h4 60000 "ws://127.0.0.1:9222/x" "tab-1" [⟨"tab-1"⟩, ⟨"tab-2"⟩]
      ⟨"tab-1"⟩ (by decide) (by decide) (by decide)
  · exact h5 60000 "ws://127.0.0.1:9222/x" "missing-tab"
      [⟨"tab-1"⟩, ⟨"tab-2"⟩] (by decide) (by decide) (Or.inr (by decide))

/-! ## Disabled-guard mains of the remaining capture plugins

responses (part_001 second file, lines 507-556), staticfile
(on_Snapshot__26_staticfile.bg.js lines 285-337), consolelog
(on_Snapshot__21_consolelog.bg.js lines 147-196) and redirects
(on_Snapshot__25_redirects.bg.ts lines 166-218) all share the dns/ssl
lifecycle skeleton: usage check, then the enablement guard printing a single
skipped ArchiveResult and exiting 0 before any `connectToPage` call, then
the try/catch whose catch prints a single failed result and exits 1. -/

/-- Models `main` of the responses hook (`RESPONSES_ENABLED` guard). -/
def responsesMain (responsesEnabled : Bool) (url snapshotId : Option String)
    (connect : Except String Unit) : HookOutcome :=
  match url, snapshotId with
  | some _, some _ =>
    if !responsesEnabled then
      { results := [⟨"skipped", "RESPONSES_ENABLED=False"⟩], exitCode := some 0,
        connectedToBrowser := false }
    else
      match connect with
      | .ok _ =>
        { results := [], exitCode := none, connectedToBrowser := true }
      | .error e =>
        { results := [⟨"failed", e⟩], exitCode := some 1,
          connectedToBrowser := true }
  | _, _ =>
    { results := [], exitCode := some 1, connectedToBrowser := false }

/-- Models `main` of the staticfile hook (`STATICFILE_ENABLED` guard). -/
def staticfileMain (staticfileEnabled : Bool) (url snapshotId : Option String)
    (connect : Except String Unit) : HookOutcome :=
  match url, snapshotId with
  | some _, some _ =>
    if !staticfileEnabled then
      { results := [⟨"skipped", "STATICFILE_ENABLED=False"⟩], exitCode := some 0,
        connectedToBrowser := false }
    else
      match connect with
      | .ok _ =>
        { results := [], exitCode := none, connectedToBrowser := true }
      | .error e =>
        { results := [⟨"failed", e⟩], exitCode := some 1,
          connectedToBrowser := true }
  | _, _ =>
    { results := [], exitCode := some 1, connectedToBrowser := false }

/-- Models `main` of the consolelog hook (`CONSOLELOG_ENABLED` guard). -/
def consolelogMain (consolelogEnabled : Bool) (url snapshotId : Option String)
    (connect : Except String Unit) : HookOutcome :=
  match url, snapshotId with
  | some _, some _ =>
    if !consolelogEnabled then
      { results := [⟨"skipped", "CONSOLELOG_ENABLED=False"⟩], exitCode := some 0,
        connectedToBrowser := false }
    else
      match connect with
      | .ok _ =>
        { results := [], exitCode := none, connectedToBrowser := true }
      | .error e =>
        { results := [⟨"failed", e⟩], exitCode := some 1,
          connectedToBrowser := true }
  | _, _ =>
    { results := [], exitCode := some 1, connectedToBrowser := false }

/-- Models `main` of the redirects hook (`REDIRECTS_ENABLED` guard). -/
def redirectsMain (redirectsEnabled : Bool) (url snapshotId : Option String)
    (connect : Except String Unit) : HookOutcome :=
  match url, snapshotId with
  | some _, some _ =>
    if !redirectsEnabled then
      { results := [⟨"skipped", "REDIRECTS_ENABLED=False"⟩], exitCode := some 0,
        connectedToBrowser := false }
    else
      match connect with
      | .ok _ =>
        { results := [], exitCode := none, connectedToBrowser := true }
      | .error e =>
        { results := [⟨"failed", e⟩], exitCode := some 1,
          connectedToBrowser := true }
  | _, _ =>
    { results := [], exitCode := some 1, connectedToBrowser := false }

/-! ## Guarded result emission of the other capture hooks

ssl `emitResult` (on_Snapshot__23_ssl.bg.js lines 112-122), responses
`emitResult` (part_001 lines 482-494), consolelog `emitResult`
(on_Snapshot__21_consolelog.bg.js lines 124-134) and the tab allocator's
`emitResult` (on_Snapshot__10_chrome_tab.bg.ts lines 67-85, flag named
`finalized`) all follow the dns pattern: a module-scope flag makes the first
call print exactly one ArchiveResult line and every later call a no-op. -/

/-- Models `emitResult(status)` of the ssl hook (its `outputStr` is
`sslCaptured ? OUTPUT_FILE : OUTPUT_FILE`, i.e. always "ssl.jsonl"). -/
def sslEmitResult (st : EmitState) (status : String) : EmitState :=
  if st.shuttingDown then st
  else
    { shuttingDown := true, lines := st.lines ++ [⟨status, "ssl.jsonl"⟩] }

/-- Models `emitResult(status)` of the responses hook with the current
`responseCount`. -/
def responsesEmitResult (st : EmitState) (status : String)
    (responseCount : Nat) : EmitState :=
  if st.shuttingDown then st
  else
    { shuttingDown := true,
      lines := st.lines ++
        [⟨status, if responseCount > 0 then s!"responses/ ({responseCount} responses)"
                  else "responses/"⟩] }

/-- Models `emitResult(status)` of the consolelog hook with the current
counters. -/
def consolelogEmitResult (st : EmitState) (status : String)
    (logCount errorCount requestFailCount : Nat) : EmitState :=
  if st.shuttingDown then st
  else
    { shuttingDown := true,
      lines := st.lines ++
        [⟨status, s!"console.jsonl ({logCount} console, {errorCount} errors, {requestFailCount} failed requests)"⟩] }

/-- Models `emitResult(statusOverride)` of the tab allocator (guard flag
`finalized`; `status = statusOverride || finalStatus`; `outputStr` is
`finalOutput` on success, else `finalError || finalOutput || ''`; the
optional `cmd_version` field is not modelled). -/
def chromeTabEmitResult (st : EmitState) (statusOverride : Option String)
    (finalStatus finalOutput finalError : String) : EmitState :=
  if st.shuttingDown then st
  else
    let status := statusOverride.getD finalStatus
    let outputStr :=
      if status == "succeeded" then finalOutput
      else if !finalError.isEmpty then finalError
      else finalOutput
    { shuttingDown := true, lines := st.lines ++ [⟨status, outputStr⟩] }

/-! ## Crawl-level hooks that never emit an ArchiveResult line

The chrome_launch session launcher (chrome_utils.ts second file,
lines 2175-2408) prints only stderr diagnostics plus ONE non-JSON stdout
line (`'[*] Chromium launch hook staying alive to handle cleanup...'`) on
success, exits 1 on errors, and its SIGTERM `cleanup` (lines 2148-2169)
exits 0 — no ArchiveResult line on any path. The extension installer hooks
(twocaptcha install in part_001 lines 596-627, singlefile install in the
staticfile file lines 630-683, ublock install in
on_Crawl__80_install_ublock_extension.ts lines 36-60) print bracketed
progress lines on stdout and exit 0/1 — again no ArchiveResult line. -/

/-- Observable stdout/exit outcome of a crawl-level hook: the ArchiveResult
JSON lines, whether any non-ArchiveResult line was printed on stdout, and
the exit code (`none` = stays resident). -/
structure LaunchOutcome where
  results : List ArchiveResult
  nonResultStdout : Bool
  exitCode : Option Nat
deriving Repr, DecidableEq

/-- Models `main` of the chrome_launch hook; `launch` abstracts the try
body (browser spawn, cookie import, extension identification) up to the
point where the hook stays resident. -/
def chromeLaunchMain (binaryFound : Bool) (launch : Except String Unit) :
    LaunchOutcome :=
  if !binaryFound then
    { results := [], nonResultStdout := false, exitCode := some 1 }
  else
    match launch with
    | .error _ => { results := [], nonResultStdout := false, exitCode := some 1 }
    | .ok _ => { results := [], nonResultStdout := true, exitCode := none }

/-- Models the chrome_launch SIGTERM `cleanup` handler: graceful close and
process-tree kill print only stderr diagnostics, then exit 0. -/
def chromeLaunchCleanup : LaunchOutcome :=
  { results := [], nonResultStdout := false, exitCode := some 0 }

/-- Models the twocaptcha installer hook's entry point (`install` is the
outcome of `installExtensionWithCache`: whether a descriptor was produced,
`.error` when it throws). -/
def twocaptchaInstallMain (install : Except String Bool) : LaunchOutcome :=
  match install with
  | .error _ => { results := [], nonResultStdout := false, exitCode := some 1 }
  | .ok _ => { results := [], nonResultStdout := true, exitCode := some 0 }

/-- Models the singlefile installer hook's entry point. -/
def singlefileInstallMain (install : Except String Bool) : LaunchOutcome :=
  match install with
  | .error _ => { results := [], nonResultStdout := false, exitCode := some 1 }
  | .ok _ => { results := [], nonResultStdout := true, exitCode := some 0 }

/-- Models the ublock installer hook's entry point. -/
def ublockInstallMain (install : Except String Bool) : LaunchOutcome :=
  match install with
  | .error _ => { results := [], nonResultStdout := false, exitCode := some 1 }
  | .ok _ => { results := [], nonResultStdout := true, exitCode := some 0 }

/-- Models `main` of the screenshot hook past the module guard
(on_Snapshot__51_screenshot.js lines 537-576): the staticfile-superseded
check emits one skipped line; a successful `takeScreenshot` emits one
succeeded line; a thrown error reaches the top-level catch which prints
only stderr ("Transient error - emit NO JSONL") and exits 1 (`conn` records
whether the failure happened after the browser connection). -/
def screenshotMain (url snapshotId : Option String) (staticfileSucceeded : Bool)
    (shot : Except String String) (conn : Bool) : HookOutcome :=
  match url, snapshotId with
  | some _, some _ =>
    if staticfileSucceeded then
      { results := [⟨"skipped", "staticfile already handled"⟩],
        exitCode := some 0, connectedToBrowser := false }
    else
      match shot with
      | .ok outPath =>
        { results := [⟨"succeeded", outPath⟩], exitCode := some 0,
          connectedToBrowser := true }
      | .error _ =>
        { results := [], exitCode := some 1, connectedToBrowser := conn }
  | _, _ =>
    { results := [], exitCode := some 1, connectedToBrowser := false }

/-! ## Theorems for claims C3 and C4 (amended statements) -/

/-- Claim C3 (amended): when the enablement flag is false, each of the dns,
ssl, responses, staticfile, consolelog and redirects hooks exits 0 and
emits exactly one skipped ArchiveResult line before any browser connection
attempt; the screenshot hook also exits 0 before any browser connection
attempt but emits NO ArchiveResult line at all. -/
theorem c3_disabled_guard_behaviour :
    (∀ (u s : String) (c : Except String Unit),
      dnsMain false (some u) (some s) c =
        { results := [⟨"skipped", "DNS_ENABLED=False"⟩], exitCode := some 0,
          connectedToBrowser := false }) ∧
    (∀ (u s : String) (c : Except String Unit),
      sslMain false (some u) (some s) c =
        { results := [⟨"skipped", "SSL_ENABLED=False"⟩], exitCode := some 0,
          connectedToBrowser := false }) ∧
    (∀ (u s : String) (c : Except String Unit),
      responsesMain false (some u) (some s) c =
        { results := [⟨"skipped", "RESPONSES_ENABLED=False"⟩], exitCode := some 0,
          connectedToBrowser := false }) ∧
    (∀ (u s : String) (c : Except String Unit),
      staticfileMain false (some u) (some s) c =
        { results := [⟨"skipped", "STATICFILE_ENABLED=False"⟩], exitCode := some 0,
          connectedToBrowser := false }) ∧
    (∀ (u s : String) (c : Except String Unit),
      consolelogMain false (some u) (some s) c =
        { results := [⟨"skipped", "CONSOLELOG_ENABLED=False"⟩], exitCode := some 0,
          connectedToBrowser := false }) ∧
    (∀ (u s : String) (c : Except String Unit),
      redirectsMain false (some u) (some s) c =
        { results := [⟨"skipped", "REDIRECTS_ENABLED=False"⟩], exitCode := some 0,
          connectedToBrowser := false }) ∧
    (∀ rest : HookOutcome,
      screenshotModule false rest =
        { results := [], exitCode := some 0, connectedToBrowser := false }) := by
  refine ⟨fun u s c => ?_, fun u s c => ?_, fun u s c => ?_, fun u s c => ?_,
    fun u s c => ?_, fun u s c => ?_, fun rest => ?_⟩ <;>
    simp [dnsMain, sslMain, responsesMain, staticfileMain, consolelogMain,
      redirectsMain, screenshotModule]

/-- Claim C4 (amended): each capture hook with a guarded `emitResult` (dns,
ssl, responses, consolelog) and the tab allocator's `finalized`-guarded
`emitResult` prints exactly one ArchiveResult line on the first emission and
nothing on any later emission, so at most one line per invocation; but the
session launcher (chrome_launch) emits no ArchiveResult line on any path —
printing a non-JSON diagnostic line on stdout on success, with its SIGTERM
cleanup exiting 0 emitting nothing — the extension installer/configurator
hooks (twocaptcha install and config, singlefile install, ublock install)
emit no ArchiveResult line on any path, and the screenshot hook emits none
on its disabled and transient-error paths. Hence "exactly one JSON line per
hook invocation, never zero" does not hold subsystem-wide. -/
theorem c4_stdout_contract :
    (∀ (s₁ s₂ : String) (n₁ n₂ : Nat),
      (dnsEmitResult emitInit s₁ n₁).lines.length = 1 ∧
      dnsEmitResult (dnsEmitResult emitInit s₁ n₁) s₂ n₂ =
        dnsEmitResult emitInit s₁ n₁) ∧
    (∀ (s₁ s₂ : String),
      (sslEmitResult emitInit s₁).lines.length = 1 ∧
      sslEmitResult (sslEmitResult emitInit s₁) s₂ =
        sslEmitResult emitInit s₁) ∧
    (∀ (s₁ s₂ : String) (n₁ n₂ : Nat),
      (responsesEmitResult emitInit s₁ n₁).lines.length = 1 ∧
      responsesEmitResult (responsesEmitResult emitInit s₁ n₁) s₂ n₂ =
        responsesEmitResult emitInit s₁ n₁) ∧
    (∀ (s₁ s₂ : String) (a₁ b₁ c₁ a₂ b₂ c₂ : Nat),
      (consolelogEmitResult emitInit s₁ a₁ b₁ c₁).lines.length = 1 ∧
      consolelogEmitResult (consolelogEmitResult emitInit s₁ a₁ b₁ c₁) s₂ a₂ b₂ c₂ =
        consolelogEmitResult emitInit s₁ a₁ b₁ c₁) ∧
    (∀ (o₁ o₂ : Option String) (fs₁ fo₁ fe₁ fs₂ fo₂ fe₂ : String),
      (chromeTabEmitResult emitInit o₁ fs₁ fo₁ fe₁).lines.length = 1 ∧
      chromeTabEmitResult (chromeTabEmitResult emitInit o₁ fs₁ fo₁ fe₁) o₂ fs₂ fo₂ fe₂ =
        chromeTabEmitResult emitInit o₁ fs₁ fo₁ fe₁) ∧
    (∀ (b : Bool) (l : Except String Unit),
      (chromeLaunchMain b l).results = []) ∧
    (chromeLaunchMain true (.ok ())).nonResultStdout = true ∧
    chromeLaunchCleanup.results = [] ∧
    (∀ (u s : Option String) (o : ConfigureOutcome) (c : Bool),
      (twocaptchaConfigMain u s o c).results = []) ∧
    (∀ i : Except String Bool, (twocaptchaInstallMain i).results = []) ∧
    (∀ i : Except String Bool, (singlefileInstallMain i).results = []) ∧
    (∀ i : Except String Bool, (ublockInstallMain i).results = []) ∧
    (∀ rest : HookOutcome, (screenshotModule false rest).results = []) ∧
    (∀ (u s e : String) (conn : Bool),
      (screenshotMain (some u) (some s) false (.error e) conn).results = []) := by
  refine ⟨?_, ?_, ?_, ?_, ?_, ?_, ?_, ?_, ?_, ?_, ?_, ?_, ?_, ?_⟩
  · intro s₁ s₂ n₁ n₂
    exact ⟨by simp [dnsEmitResult, emitInit], by simp [dnsEmitResult, emitInit]⟩
  · intro s₁ s₂
    exact ⟨by simp [sslEmitResult, emitInit], by simp [sslEmitResult, emitInit]⟩
  · intro s₁ s₂ n₁ n₂
    exact ⟨by simp [responsesEmitResult, emitInit],
      by simp [responsesEmitResult, emitInit]⟩
  · intro s₁ s₂ a₁ b₁ c₁ a₂ b₂ c₂
    exact ⟨by simp [consolelogEmitResult, emitInit],
      by simp [consolelogEmitResult, emitInit]⟩
  · intro o₁ o₂ fs₁ fo₁ fe₁ fs₂ fo₂ fe₂
    exact ⟨by simp [chromeTabEmitResult, emitInit],
      by simp [chromeTabEmitResult, emitInit]⟩
  · intro b l
    cases b <;> cases l <;> simp [chromeLaunchMain]
  · rfl
  · rfl
  · intro u s o c
    cases u <;> cases s <;> cases o <;> simp [twocaptchaConfigMain]
  · intro i
    cases i <;> simp [twocaptchaInstallMain]
  · intro i
    cases i <;> simp [singlefileInstallMain]
  · intro i
    cases i <;> simp [ublockInstallMain]
  · intro rest
    simp [screenshotModule]
  · intro u s e conn
    simp [screenshotMain]
